import Mathlib

/-!
# Verification of the `awx` credential tool (src/main.rs)

A shallow embedding of the credential-resolution and delegate-execution
logic of the `aws-auth-command` repository (`src/main.rs`), with theorems
checking the natural-language specification against the code.

Modelling conventions:
* Rust `String` becomes Lean `String`; string library operations used by the
  source (`split`, `trim`, `starts_with`, `ends_with`, `find`, `lines`) are
  translated as structurally recursive functions over `String.data`
  (`List Char`) so every definition is kernel-evaluable on concrete inputs.
* Rust `Option<String>` becomes `Option String`; `anyhow::Result` errors and
  `std::process::exit` calls are distinguished `RunOutcome` constructors;
  fallible external calls are `Except String` oracle values.
* External processes (the `aws` CLI) and the interactive prompt are modelled
  as oracle inputs (`Services`, prompt streams); each external invocation is
  additionally recorded in a trace of `ExtCall` values carrying the call
  arguments, the timeout (seconds) and the fixed requested duration used by
  the source.
* Rust `HashMap` is modelled as an insertion-ordered association list with
  insert-or-update (`entry`-style) semantics; for the properties proved, the
  iteration order only matters through the well-formedness hypotheses stated
  with the claims.
* Error message strings follow the source messages with the interpolated
  values concatenated in place (quoting punctuation dropped).
-/

/-! ## String helpers (structural translations of the Rust string methods) -/

/-- Rust `str::split(sep)` for a one-character separator, on char lists:
splitting the empty list yields one empty field, and `n` separators yield
`n + 1` fields. -/
def splitChar (sep : Char) : List Char → List (List Char)
  | [] => [[]]
  | c :: rest =>
    if c = sep then
      [] :: splitChar sep rest
    else
      match splitChar sep rest with
      | [] => [[c]]
      | h :: t => (c :: h) :: t

/-- ASCII whitespace recognizer used by the trim translation (the source
uses Rust `str::trim`; the config grammar only exercises ASCII blanks). -/
def isWsChar (c : Char) : Bool :=
  c = ' ' || c = '\t' || c = '\n' || c = '\r'

/-- Rust `str::trim` on char lists: drop whitespace from both ends. -/
def trimChars (l : List Char) : List Char :=
  ((l.dropWhile isWsChar).reverse.dropWhile isWsChar).reverse

/-- Rust `str::trim` on strings. -/
def strTrim (s : String) : String :=
  String.mk (trimChars s.data)

/-- Rust `str::starts_with` for a string pattern. -/
def strStartsWith (s pat : String) : Bool :=
  pat.data.isPrefixOf s.data

/-- Rust `str::lines` modulo the trailing-newline edge case: the extra empty
final field produced on a trailing newline is skipped by the parser anyway
(blank lines are ignored), and carriage returns are removed by trimming. -/
def linesOf (s : String) : List String :=
  (splitChar '\n' s.data).map String.mk

/-! ## Data model (`Profile`, `StsCredentials`) -/

/-- `struct Profile` from src/main.rs. -/
structure Profile where
  name : String
  region : Option String := none
  sso_start_url : Option String := none
  sso_region : Option String := none
  role_arn : Option String := none
  source_profile : Option String := none
  mfa_serial : Option String := none
  aws_access_key_id : Option String := none
  aws_secret_access_key : Option String := none
  aws_session_token : Option String := none
deriving DecidableEq

/-- `Profile::is_sso`. -/
def Profile.is_sso (p : Profile) : Bool :=
  p.sso_start_url.isSome || p.sso_region.isSome

/-- `Profile::is_role`. -/
def Profile.is_role (p : Profile) : Bool :=
  p.role_arn.isSome

/-- `Profile::is_static`. -/
def Profile.is_static (p : Profile) : Bool :=
  p.aws_access_key_id.isSome && p.aws_secret_access_key.isSome

/-- `Profile::requires_mfa`. -/
def Profile.requires_mfa (p : Profile) : Bool :=
  p.mfa_serial.isSome

/-- `struct StsCredentials` from src/main.rs (fields of the JSON
`Credentials` object returned by the identity-service CLI). -/
structure StsCredentials where
  access_key_id : String
  secret_access_key : String
  session_token : String
  expiration : String
deriving DecidableEq

/-! ## `parse_ini` (src/main.rs lines 12-38)

Sections and per-section key/value tables are insertion-ordered association
lists with replace-on-duplicate insertion, matching `HashMap::insert`. -/

/-- Per-section key/value table. -/
abbrev KVList := List (String × String)

/-- Parsed INI document: section name to key/value table. -/
abbrev IniMap := List (String × KVList)

/-- `HashMap::insert` on a key/value table: replace an existing binding for
the key, otherwise append. -/
def kvInsert : KVList → String → String → KVList
  | [], k, v => [(k, v)]
  | (k0, v0) :: rest, k, v =>
    if k0 = k then (k, v) :: rest else (k0, v0) :: kvInsert rest k v

/-- `map.entry(section).or_insert_default().insert(k, v)`: add the binding
`k = v` to the named section, creating the section if needed. -/
def iniInsert : IniMap → String → String → String → IniMap
  | [], sec, k, v => [(sec, [(k, v)])]
  | (s0, kvs) :: rest, sec, k, v =>
    if s0 = sec then (s0, kvInsert kvs k v) :: rest
    else (s0, kvs) :: iniInsert rest sec k v

/-- One iteration of the `parse_ini` line loop. The state is the map built
so far together with `current_section` (initially `default`): blank lines
and `#`/`;` comments are skipped, `[section]` lines replace the current
section, and `key = value` lines (first `=` splits, both sides trimmed) are
inserted into the current section; lines with no `=` are skipped. -/
def iniLineStep (st : IniMap × String) (raw : String) : IniMap × String :=
  let line := trimChars raw.data
  if line = [] then st
  else if line.head? == some '#' || line.head? == some ';' then st
  else if line.head? == some '[' && line.getLast? == some ']' then
    (st.1, String.mk (trimChars ((line.drop 1).dropLast)))
  else
    match line.span (fun c => c != '=') with
    | (before, _ :: after) =>
      (iniInsert st.1 st.2 (String.mk (trimChars before)) (String.mk (trimChars after)), st.2)
    | (_, []) => st

/-- Whether `parse_ini` would treat this raw line as a `[section]` header
(nonempty after trimming, not a comment, bracketed). Used to state the
pre-header claim; comment lines starting with `#` or `;` are not headers
because the bracket test requires the first character to be `[`. -/
def isHeaderLine (raw : String) : Bool :=
  let line := trimChars raw.data
  line.head? == some '[' && line.getLast? == some ']'

/-- `parse_ini`: fold the line loop over the content, starting from the
empty map and `current_section = default`. -/
def parse_ini (content : String) : IniMap :=
  (List.foldl iniLineStep ([], "default") (linesOf content)).1

/-! ## `load_profiles_from_dir` (src/main.rs lines 292-355) -/

/-- The profile table (`HashMap<String, Profile>`), insertion-ordered. -/
abbrev ProfileTable := List (String × Profile)

/-- `HashMap::get` on the profile table. -/
def tableLookup : ProfileTable → String → Option Profile
  | [], _ => none
  | (k0, p) :: rest, k => if k0 = k then some p else tableLookup rest k

/-- The key set of the profile table. -/
def tableKeys (m : ProfileTable) : List String :=
  m.map Prod.fst

/-- `profiles.entry(k).or_insert_with(default-profile-named-k)` followed by
the field mutations `f`: update the existing entry in place, or append a
fresh default profile named `k` and update it. -/
def tableUpsert : ProfileTable → String → (Profile → Profile) → ProfileTable
  | [], k, f => [(k, f { name := k })]
  | (k0, p) :: rest, k, f =>
    if k0 = k then (k0, f p) :: rest else (k0, p) :: tableUpsert rest k f

/-- Config section name to profile name: sections named `profile <name>`
are stripped of the 8-byte marker, anything else (notably `default`) is
taken as-is. -/
def profileNameOfSection (sec : String) : String :=
  if strStartsWith sec "profile " then String.mk (sec.data.drop 8) else sec

/-- The six field mutations applied from a config-source section: each field
is set only when the section provides the key, written per-field (the source
performs the same independent `if let Some` updates sequentially). -/
def kvLookup : KVList → String → Option String
  | [], _ => none
  | (k0, v) :: rest, k => if k0 = k then some v else kvLookup rest k

/-- See `kvLookup`. -/
def applyConfigProps (props : KVList) (p : Profile) : Profile :=
  { p with
    region := match kvLookup props "region" with
      | some r => some r
      | none => p.region
    sso_start_url := match kvLookup props "sso_start_url" with
      | some s => some s
      | none => p.sso_start_url
    sso_region := match kvLookup props "sso_region" with
      | some s => some s
      | none => p.sso_region
    role_arn := match kvLookup props "role_arn" with
      | some r => some r
      | none => p.role_arn
    source_profile := match kvLookup props "source_profile" with
      | some s => some s
      | none => p.source_profile
    mfa_serial := match kvLookup props "mfa_serial" with
      | some m => some m
      | none => p.mfa_serial }

/-- The three static-key field mutations applied from a credentials-source
section. -/
def applyCredsProps (props : KVList) (p : Profile) : Profile :=
  { p with
    aws_access_key_id := match kvLookup props "aws_access_key_id" with
      | some a => some a
      | none => p.aws_access_key_id
    aws_secret_access_key := match kvLookup props "aws_secret_access_key" with
      | some a => some a
      | none => p.aws_secret_access_key
    aws_session_token := match kvLookup props "aws_session_token" with
      | some a => some a
      | none => p.aws_session_token }

/-- The `for (section_name, prop) in conf` loops of `load_profiles_from_dir`,
generalized over the section-to-profile-name function and the per-section
field mutations. -/
def foldUpserts (keyOf : String × KVList → String)
    (updOf : String × KVList → Profile → Profile) :
    IniMap → ProfileTable → ProfileTable
  | [], m => m
  | sp :: rest, m => foldUpserts keyOf updOf rest (tableUpsert m (keyOf sp) (updOf sp))

/-- The config-source loop: strip `profile ` from section names, merge the
six config fields. -/
def loadConfigInto (m : ProfileTable) (secs : IniMap) : ProfileTable :=
  foldUpserts (fun sp => profileNameOfSection sp.1) (fun sp => applyConfigProps sp.2) secs m

/-- The credentials-source loop: bare section names, merge the three
static-key fields. -/
def loadCredsInto (m : ProfileTable) (secs : IniMap) : ProfileTable :=
  foldUpserts (fun sp => sp.1) (fun sp => applyCredsProps sp.2) secs m

/-- `load_profiles_from_dir`, with file system access made explicit: each
source is `none` (file absent), `some none` (file present but unreadable,
the only failure), or `some (some content)`. The config source is read and
merged first, then the credentials source. -/
def load_profiles_from_dir (config creds : Option (Option String)) :
    Except String ProfileTable :=
  match config with
  | some none => Except.error "Failed to read config"
  | some (some cfg) =>
    match creds with
    | some none => Except.error "Failed to read credentials"
    | some (some cr) =>
      Except.ok (loadCredsInto (loadConfigInto [] (parse_ini cfg)) (parse_ini cr))
    | none => Except.ok (loadConfigInto [] (parse_ini cfg))
  | none =>
    match creds with
    | some none => Except.error "Failed to read credentials"
    | some (some cr) => Except.ok (loadCredsInto [] (parse_ini cr))
    | none => Except.ok []

/-- The merged table for two present, readable sources (the general case:
an absent source behaves as the empty string, see `c7` conjuncts). -/
def mergeSources (cfg cr : String) : ProfileTable :=
  loadCredsInto (loadConfigInto [] (parse_ini cfg)) (parse_ini cr)

/-- The key/value table of the unique config section for profile `n`
(empty when no config section maps to `n`). -/
def configPropsFor (cfg n : String) : KVList :=
  match (parse_ini cfg).find? (fun sp => profileNameOfSection sp.1 = n) with
  | some sp => sp.2
  | none => []

/-- The key/value table of the unique credentials section named `n`. -/
def credsPropsFor (cr n : String) : KVList :=
  match (parse_ini cr).find? (fun sp => sp.1 = n) with
  | some sp => sp.2
  | none => []

/-! ## `extract_account_from_arn` (src/main.rs lines 447-458) -/

/-- `extract_account_from_arn`: split on `:`; if there are at least five
fields and the fifth is non-empty, return it, otherwise `None`. -/
def extract_account_from_arn (arn : String) : Option String :=
  let parts := (splitChar ':' arn.data).map String.mk
  if 5 ≤ parts.length then
    let account := parts.getD 4 ""
    if account ≠ "" then some account else none
  else none

/-! ## External calls, outcomes and oracles -/

/-- One invocation of the external `aws` CLI (or of the interactive MFA
prompt), with the timeout in seconds and, for the credential-yielding STS
calls, the fixed `--duration-seconds` value used by the source. -/
inductive ExtCall where
  | checkIdentity (profile : String) (timeoutSecs : Nat)
  | getAccount (profile : String) (timeoutSecs : Nat)
  | getSessionToken (profile serial code : String) (timeoutSecs durationSecs : Nat)
  | assumeRoleWithProfile (roleArn sessionName profile : String) (timeoutSecs durationSecs : Nat)
  | assumeRoleWithEnv (roleArn sessionName : String) (base : StsCredentials) (timeoutSecs durationSecs : Nat)
  | ssoLoginCall (profile : String)
  | mfaPrompt (serial : String)
deriving DecidableEq

/-- Result of a code path: a value, an `anyhow` error propagated to `main`
(exit code 1), or an immediate `std::process::exit(code)`. -/
inductive RunOutcome (α : Type) where
  | ok (val : α)
  | err (msg : String)
  | exitProcess (code : Nat)
deriving DecidableEq

/-- Oracles for the external world: results of the identity-service CLI
calls (`Except.error` covers non-zero exit, malformed JSON, spawn failure
and timeout), the `aws sso login` child status, the generated role session
name, and the stream of MFA codes typed at the prompt. `getSessionToken`
takes the profile, the serial, the index of the service call within the
resolution and the submitted code. -/
structure Services where
  checkIdentity : String → Except String Bool
  ssoLogin : String → Except String Bool
  getAccount : String → Except String String
  getSessionToken : String → String → Nat → String → Except String StsCredentials
  assumeRoleWithProfile : String → String → String → Except String StsCredentials
  assumeRoleWithEnv : String → String → StsCredentials → Except String StsCredentials
  sessionName : String
  mfaCodes : Nat → String

/-- `true` for the prompt pseudo-call. -/
def isMfaPromptCall : ExtCall → Bool
  | .mfaPrompt _ => true
  | _ => false

/-- `true` for a `get-session-token` network call. -/
def isGetSessionTokenCall : ExtCall → Bool
  | .getSessionToken _ _ _ _ _ => true
  | _ => false

/-- Number of MFA prompts in a trace. -/
def promptCount (t : List ExtCall) : Nat :=
  (t.filter isMfaPromptCall).length

/-- Number of `get-session-token` network calls in a trace. -/
def svcCallCount (t : List ExtCall) : Nat :=
  (t.filter isGetSessionTokenCall).length

/-! ## MFA acquisition: `get_session_token_interactive` (src/main.rs 405-445) -/

/-- The local 6-digit check: all characters ASCII digits and exactly six of
them (on an all-digit string the Rust byte length equals the char count). -/
def mfaCodeValid (code : String) : Bool :=
  code.data.all Char.isDigit && code.data.length = 6

/-- The `for attempt in 1..=3` prompt loop. Arguments: remaining attempts
(3 at entry, so the source's `attempt == 3` test is `rem = 0`), the index of
the next prompt in the code stream, and the index of the next service call.
An invalid code is rejected locally (no service call) and the loop moves to
the next attempt; a valid code is submitted; on service success the
credentials are returned; on service failure at the last attempt the whole
process exits with status 3; falling out of the loop yields a normal
error. -/
def mfaLoop (profile serial : String) (codes : Nat → String)
    (svc : Nat → String → Except String StsCredentials) :
    Nat → Nat → Nat → RunOutcome StsCredentials × List ExtCall
  | 0, _, _ => (.err "MFA failed after retries", [])
  | rem + 1, prompt, calls =>
    let code := strTrim (codes prompt)
    if mfaCodeValid code then
      match svc calls code with
      | .ok c =>
        (.ok c, [.mfaPrompt serial, .getSessionToken profile serial code 30 3600])
      | .error _ =>
        if rem = 0 then
          (.exitProcess 3, [.mfaPrompt serial, .getSessionToken profile serial code 30 3600])
        else
          let r := mfaLoop profile serial codes svc rem (prompt + 1) (calls + 1)
          (r.1, .mfaPrompt serial :: .getSessionToken profile serial code 30 3600 :: r.2)
    else
      let r := mfaLoop profile serial codes svc rem (prompt + 1) calls
      (r.1, .mfaPrompt serial :: r.2)

/-- The `MfaError::AccountMismatch` message (source format string with the
values concatenated in place). -/
def accountMismatchMessage (mfaAccount profileAccount profile : String) : String :=
  "MFA serial account (" ++ mfaAccount ++ ") does not match profile account (" ++
    profileAccount ++ "). Update mfa_serial in profile " ++ profile ++
    ", or use credentials for the correct account."

/-- `get_session_token_interactive`: if the account id is extractable from
the MFA serial, call `get_profile_account` (a 5-second-timeout
get-caller-identity); on a successful answer a differing account is a hard
error raised before any prompt; on a failed answer a warning is printed and
the prompt loop is entered anyway; if no account is extractable the prompt
loop is entered directly. -/
def get_session_token_interactive (profile serial : String)
    (getAccount : Except String String) (codes : Nat → String)
    (svc : Nat → String → Except String StsCredentials) :
    RunOutcome StsCredentials × List ExtCall :=
  match extract_account_from_arn serial with
  | some mfaAccount =>
    match getAccount with
    | .ok profileAccount =>
      if profileAccount ≠ mfaAccount then
        (.err (accountMismatchMessage mfaAccount profileAccount profile),
         [.getAccount profile 5])
      else
        let r := mfaLoop profile serial codes svc 3 0 0
        (r.1, .getAccount profile 5 :: r.2)
    | .error _ =>
      let r := mfaLoop profile serial codes svc 3 0 0
      (r.1, .getAccount profile 5 :: r.2)
  | none => mfaLoop profile serial codes svc 3 0 0

/-! ## Credential resolution (`run`, src/main.rs lines 160-254) -/

/-- An `assume-role` delegated to the named source profile
(`assume_role_with_profile`, 30-second timeout, 3600-second duration). -/
def assumeViaSource (role_arn source_name : String) (s : Services) :
    RunOutcome (Option StsCredentials) × List ExtCall :=
  let call := ExtCall.assumeRoleWithProfile role_arn s.sessionName source_name 30 3600
  match s.assumeRoleWithProfile role_arn s.sessionName source_name with
  | .ok c => (.ok (some c), [call])
  | .error e => (.err ("assume-role failed: " ++ e), [call])

/-- The source-profile classification after the `requires_mfa && is_static`
test has failed: an SSO source and a static source both delegate to
`assume_role_with_profile`; anything else is the generic unsupported-auth
error. There is no test on `is_role` for the source profile. -/
def roleSourceFallback (role_arn source_name : String) (base : Profile) (s : Services) :
    RunOutcome (Option StsCredentials) × List ExtCall :=
  if base.is_sso then assumeViaSource role_arn source_name s
  else if base.is_static then assumeViaSource role_arn source_name s
  else
    (.err ("Unsupported source_profile auth method for " ++ source_name ++
      ". MVP supports SSO or static+MFA for source profiles."), [])

/-- The credential-resolution step of `run` (lines 209-254), producing the
optional credentials later passed to the delegate runner. Role profiles
(one `match` per guarded `unwrap` of the source) resolve through their
source profile; a non-role static profile with an MFA serial goes through
the interactive session-token acquisition; anything else needs no
injection. -/
def resolveCreds (store : String → Option Profile) (p : Profile) (s : Services) :
    RunOutcome (Option StsCredentials) × List ExtCall :=
  match p.role_arn with
  | some role_arn =>
    match p.source_profile with
    | none => (.err "source_profile missing for role profile", [])
    | some source_name =>
      match store source_name with
      | none => (.err ("source_profile " ++ source_name ++ " not found"), [])
      | some base =>
        match base.mfa_serial with
        | some mfa =>
          if base.is_static then
            let r := get_session_token_interactive source_name mfa
              (s.getAccount source_name) s.mfaCodes
              (fun i code => s.getSessionToken source_name mfa i code)
            match r.1 with
            | .ok base_temp =>
              let call := ExtCall.assumeRoleWithEnv role_arn s.sessionName base_temp 30 3600
              match s.assumeRoleWithEnv role_arn s.sessionName base_temp with
              | .ok c => (.ok (some c), r.2 ++ [call])
              | .error e => (.err ("assume-role (env) failed: " ++ e), r.2 ++ [call])
            | .err m => (.err m, r.2)
            | .exitProcess n => (.exitProcess n, r.2)
          else roleSourceFallback role_arn source_name base s
        | none => roleSourceFallback role_arn source_name base s
  | none =>
    match p.mfa_serial with
    | some mfa =>
      if p.is_static then
        let r := get_session_token_interactive p.name mfa (s.getAccount p.name)
          s.mfaCodes (fun i code => s.getSessionToken p.name mfa i code)
        match r.1 with
        | .ok c => (.ok (some c), r.2)
        | .err m => (.err m, r.2)
        | .exitProcess n => (.exitProcess n, r.2)
      else (.ok none, [])
    | none => (.ok none, [])

/-- The SSO liveness block of `run` (lines 165-206), entered only for an
`is_sso` selected profile: `check_sts_identity` (get-caller-identity with a
5-second timeout); on `Ok(false)` either exit 2 (unattended) or run
`aws sso login` and fail the run if it fails; on `Err` (timeout or spawn)
exit 2 when unattended, otherwise proceed. -/
def sso_liveness (noInteractive : Bool) (name : String) (s : Services) :
    RunOutcome Unit × List ExtCall :=
  match s.checkIdentity name with
  | .ok true => (.ok (), [.checkIdentity name 5])
  | .ok false =>
    if noInteractive then (.exitProcess 2, [.checkIdentity name 5])
    else
      match s.ssoLogin name with
      | .ok true => (.ok (), [.checkIdentity name 5, .ssoLoginCall name])
      | .ok false => (.err "aws sso login failed", [.checkIdentity name 5, .ssoLoginCall name])
      | .error _ => (.err "Failed to run aws sso login", [.checkIdentity name 5, .ssoLoginCall name])
  | .error _ =>
    if noInteractive then (.exitProcess 2, [.checkIdentity name 5])
    else (.ok (), [.checkIdentity name 5])

/-- `run` from selected-profile lookup (line 160) through credential
resolution (line 254): fetch the selected profile, perform the SSO liveness
block when the selected profile `is_sso`, then resolve credentials. -/
def runResolve (noInteractive : Bool) (store : String → Option Profile)
    (selName : String) (s : Services) :
    RunOutcome (Option StsCredentials) × List ExtCall :=
  match store selName with
  | none => (.err ("Profile " ++ selName ++ " not found"), [])
  | some profile =>
    if profile.is_sso then
      match sso_liveness noInteractive selName s with
      | (.ok _, t) =>
        let r := resolveCreds store profile s
        (r.1, t ++ r.2)
      | (.err m, t) => (.err m, t)
      | (.exitProcess n, t) => (.exitProcess n, t)
    else resolveCreds store profile s

/-! ## DelegateRunner: `run_aws_child_capture` (src/main.rs lines 577-694)

The function is modelled in two parts mirroring its two phases:
`childEnvSets` is the ordered list of `cmd.env(key, value)` calls performed
before spawning (the child observes, for each variable, the last value set,
or the ambient value when the variable is never set), and
`exit_code_of_status` is the exit-status translation applied after waiting
(the unix branch of the source). The ambient environment is an explicit
snapshot `String → Option String` (`none` models `env::var` returning
`Err`, i.e. the variable is unset). -/

/-- First `cmd.env` block of `run_aws_child_capture`: resolved credentials
are set unconditionally; otherwise a static profile's keys are injected
unless the ambient environment already provides a non-empty
`AWS_ACCESS_KEY_ID` (empty string treated as not provided). -/
def credEnvSets (creds : Option StsCredentials) (profile : Profile)
    (amb : String → Option String) : List (String × String) :=
  match creds with
  | some c =>
      [("AWS_ACCESS_KEY_ID", c.access_key_id),
       ("AWS_SECRET_ACCESS_KEY", c.secret_access_key),
       ("AWS_SESSION_TOKEN", c.session_token)]
  | none =>
      if profile.is_static then
        let ak_present := match amb "AWS_ACCESS_KEY_ID" with
          | some v => !(v = "")
          | none => false
        if ak_present then []
        else
          (match profile.aws_access_key_id with
           | some k => [("AWS_ACCESS_KEY_ID", k)]
           | none => []) ++
          (match profile.aws_secret_access_key with
           | some s => [("AWS_SECRET_ACCESS_KEY", s)]
           | none => []) ++
          (match profile.aws_session_token with
           | some t => [("AWS_SESSION_TOKEN", t)]
           | none => [])
      else []

/-- Region `cmd.env` block: inject the profile region (as
`AWS_DEFAULT_REGION`) only when neither region environment variable is set
nor a `--region` argument was passed. -/
def regionEnvSets (args : List String) (profile : Profile)
    (amb : String → Option String) : List (String × String) :=
  let region_env := (amb "AWS_REGION").orElse (fun _ => amb "AWS_DEFAULT_REGION")
  let provided_region_in_args := args.any (fun a => strStartsWith a "--region")
  if region_env.isNone && !provided_region_in_args then
    match profile.region with
    | some r => [("AWS_DEFAULT_REGION", r)]
    | none => []
  else []

/-- Profile-selector `cmd.env` block: set `AWS_PROFILE` to the selected
profile name unless the arguments already carry an explicit profile flag. -/
def profileEnvSets (args : List String) (profile : Profile) : List (String × String) :=
  let provided_profile_in_args :=
    args.any (fun a => a = "--profile" || strStartsWith a "--profile=")
  if !provided_profile_in_args then [("AWS_PROFILE", profile.name)] else []

/-- The ordered `cmd.env` calls made by `run_aws_child_capture` for a given
argument list, optional resolved credentials, profile, and ambient
environment snapshot. -/
def childEnvSets (args : List String) (creds : Option StsCredentials)
    (profile : Profile) (amb : String → Option String) : List (String × String) :=
  credEnvSets creds profile amb ++ regionEnvSets args profile amb ++
    profileEnvSets args profile

/-- The value of environment variable `k` observed by the spawned child:
the last `cmd.env` call for `k` wins, otherwise the ambient value is
inherited. -/
def childObservedVar (sets : List (String × String))
    (amb : String → Option String) (k : String) : Option String :=
  match (sets.filter (fun e => e.1 = k)).getLast? with
  | some e => some e.2
  | none => amb k

/-- Signal numbers of `libc::SIGINT` / `libc::SIGTERM` (Linux). -/
def SIGINT_NUM : Nat := 2

/-- See `SIGINT_NUM`. -/
def SIGTERM_NUM : Nat := 15

/-- How the child process terminated, as exposed by `ExitStatus`:
`code` is `Some` for a normal exit, otherwise `signal` may be `Some`. -/
inductive ChildStatus where
  | exited (code : Int)
  | signaled (sig : Nat)
  | unknown
deriving DecidableEq

/-- Exit-status translation of `run_aws_child_capture` (unix branch): a
normal exit code is returned unchanged; a signal maps SIGINT to 130,
SIGTERM to 143 and any other signal `s` to `128 + s`; the fallthrough
returns 0. -/
def exit_code_of_status : ChildStatus → Int
  | .exited c => c
  | .signaled s =>
      if s = SIGINT_NUM then 130
      else if s = SIGTERM_NUM then 143
      else 128 + (s : Int)
  | .unknown => 0

/-! ## Theorems -/

/-- C8: for every input string, `extract_account_from_arn` returns the fifth
colon-delimited field when the string splits into at least five fields and
that fifth field is non-empty, and returns `none` for any input with fewer
than five colon-delimited fields. -/
theorem c8_extract_account_fifth_field (arn : String) :
    (5 ≤ ((splitChar ':' arn.data).map String.mk).length →
      ((splitChar ':' arn.data).map String.mk).getD 4 "" ≠ "" →
      extract_account_from_arn arn =
        some (((splitChar ':' arn.data).map String.mk).getD 4 "")) ∧
    (((splitChar ':' arn.data).map String.mk).length < 5 →
      extract_account_from_arn arn = none) := by
  constructor
  · intro h5 hne
    simp only [extract_account_from_arn, if_pos h5, if_pos hne]
  · intro hlt
    simp only [extract_account_from_arn,
      if_neg (by omega : ¬ 5 ≤ ((splitChar ':' arn.data).map String.mk).length)]

/-- Witness for C8 at concrete inputs: the MFA serial from the repository
tests yields its account field, and a two-field string yields `none`. -/
theorem c8_witness :
    extract_account_from_arn "arn:aws:iam::111111111111:mfa/test-user" = some "111111111111" ∧
    extract_account_from_arn "a:b" = none := by
  constructor
  · exact ((c8_extract_account_fifth_field "arn:aws:iam::111111111111:mfa/test-user").1
      (by decide) (by decide)).trans (by decide)
  · exact (c8_extract_account_fifth_field "a:b").2 (by decide)

/-- C4: the delegate exit-status translation is exact — a child exiting
normally with code `n` yields `n` unchanged, termination by SIGINT yields
130, by SIGTERM yields 143, and by any other signal `s` yields `128 + s`. -/
theorem c4_exit_status_translation :
    (∀ n : Int, exit_code_of_status (.exited n) = n) ∧
    exit_code_of_status (.signaled SIGINT_NUM) = 130 ∧
    exit_code_of_status (.signaled SIGTERM_NUM) = 143 ∧
    (∀ s : Nat, s ≠ SIGINT_NUM → s ≠ SIGTERM_NUM →
      exit_code_of_status (.signaled s) = 128 + (s : Int)) := by
  refine ⟨fun n => rfl, rfl, rfl, fun s h1 h2 => ?_⟩
  simp only [exit_code_of_status, if_neg h1, if_neg h2]

/-- Witness for C4 at concrete inputs: exit code 7 is forwarded, SIGKILL
(signal 9) maps to 137. -/
theorem c4_witness :
    exit_code_of_status (.exited 7) = 7 ∧
    exit_code_of_status (.signaled 9) = 137 := by
  refine ⟨(c4_exit_status_translation.1 7), ?_⟩
  exact (c4_exit_status_translation.2.2.2 9 (by decide) (by decide)).trans (by decide)

/-- Every entry of the region block has key `AWS_DEFAULT_REGION`. -/
lemma regionEnvSets_key (args : List String) (p : Profile)
    (amb : String → Option String) :
    ∀ e ∈ regionEnvSets args p amb, e.1 = "AWS_DEFAULT_REGION" := by
  intro e he
  simp only [regionEnvSets] at he
  split at he
  · split at he
    · simp only [List.mem_singleton] at he
      simp [he]
    · simp at he
  · simp at he

/-- Every entry of the profile-selector block has key `AWS_PROFILE`. -/
lemma profileEnvSets_key (args : List String) (p : Profile) :
    ∀ e ∈ profileEnvSets args p, e.1 = "AWS_PROFILE" := by
  intro e he
  simp only [profileEnvSets] at he
  split at he
  · simp only [List.mem_singleton] at he
    simp [he]
  · simp at he

/-- A trailing block whose keys all differ from `k` does not affect the
child's observed value for `k`. -/
lemma childObservedVar_append (l₁ l₂ : List (String × String))
    (amb : String → Option String) (k : String)
    (h : ∀ e ∈ l₂, e.1 ≠ k) :
    childObservedVar (l₁ ++ l₂) amb k = childObservedVar l₁ amb k := by
  unfold childObservedVar
  have h2 : l₂.filter (fun e => e.1 = k) = [] := by
    simp only [List.filter_eq_nil_iff]
    intro e he
    simp [h e he]
  rw [List.filter_append, h2, List.append_nil]

/-- For the three credential variables, only the first `cmd.env` block is
relevant. -/
lemma childObservedVar_credKey (args : List String) (creds : Option StsCredentials)
    (p : Profile) (amb : String → Option String) (k : String)
    (hk : k = "AWS_ACCESS_KEY_ID" ∨ k = "AWS_SECRET_ACCESS_KEY" ∨ k = "AWS_SESSION_TOKEN") :
    childObservedVar (childEnvSets args creds p amb) amb k =
      childObservedVar (credEnvSets creds p amb) amb k := by
  unfold childEnvSets
  rw [List.append_assoc, childObservedVar_append]
  intro e he
  rcases List.mem_append.mp he with hr | hp
  · have := regionEnvSets_key args p amb e hr
    rcases hk with h | h | h <;> simp [this, h]
  · have := profileEnvSets_key args p e hp
    rcases hk with h | h | h <;> simp [this, h]

/-- C5: credential-injection precedence in the delegate runner. If resolved
credentials are present their three fields are observed by the child
unconditionally; otherwise, for a static profile with the ambient
`AWS_ACCESS_KEY_ID` unset or empty, each of the profile's static fields is
injected exactly when the profile defines it; and a non-empty ambient
`AWS_ACCESS_KEY_ID` is never overridden by profile keys. -/
theorem c5_credential_injection_precedence (args : List String)
    (creds : Option StsCredentials) (p : Profile) (amb : String → Option String) :
    (∀ c, creds = some c →
      childObservedVar (childEnvSets args creds p amb) amb "AWS_ACCESS_KEY_ID" =
        some c.access_key_id ∧
      childObservedVar (childEnvSets args creds p amb) amb "AWS_SECRET_ACCESS_KEY" =
        some c.secret_access_key ∧
      childObservedVar (childEnvSets args creds p amb) amb "AWS_SESSION_TOKEN" =
        some c.session_token) ∧
    (creds = none → p.is_static = true →
      (amb "AWS_ACCESS_KEY_ID" = none ∨ amb "AWS_ACCESS_KEY_ID" = some "") →
      (∀ k, p.aws_access_key_id = some k →
        childObservedVar (childEnvSets args creds p amb) amb "AWS_ACCESS_KEY_ID" = some k) ∧
      (∀ s, p.aws_secret_access_key = some s →
        childObservedVar (childEnvSets args creds p amb) amb "AWS_SECRET_ACCESS_KEY" = some s) ∧
      (∀ t, p.aws_session_token = some t →
        childObservedVar (childEnvSets args creds p amb) amb "AWS_SESSION_TOKEN" = some t) ∧
      (p.aws_session_token = none →
        childObservedVar (childEnvSets args creds p amb) amb "AWS_SESSION_TOKEN" =
          amb "AWS_SESSION_TOKEN")) ∧
    (creds = none → ∀ v, amb "AWS_ACCESS_KEY_ID" = some v → v ≠ "" →
      childObservedVar (childEnvSets args creds p amb) amb "AWS_ACCESS_KEY_ID" = some v) := by
  refine ⟨?_, ?_, ?_⟩
  · rintro c rfl
    refine ⟨?_, ?_, ?_⟩ <;>
      rw [childObservedVar_credKey args _ p amb _ (by simp)] <;>
      simp [credEnvSets, childObservedVar]
  · rintro rfl hstat hak
    have hcred : credEnvSets none p amb =
        (match p.aws_access_key_id with
         | some k => [("AWS_ACCESS_KEY_ID", k)]
         | none => []) ++
        (match p.aws_secret_access_key with
         | some s => [("AWS_SECRET_ACCESS_KEY", s)]
         | none => []) ++
        (match p.aws_session_token with
         | some t => [("AWS_SESSION_TOKEN", t)]
         | none => []) := by
      unfold credEnvSets
      rcases hak with h | h <;> simp [hstat, h]
    refine ⟨?_, ?_, ?_, ?_⟩
    · intro k hk
      rw [childObservedVar_credKey args _ p amb _ (by simp), hcred]
      cases hs : p.aws_secret_access_key <;> cases ht : p.aws_session_token <;>
        simp [childObservedVar, hk, hs, ht]
    · intro s hs
      rw [childObservedVar_credKey args _ p amb _ (by simp), hcred]
      cases hk : p.aws_access_key_id <;> cases ht : p.aws_session_token <;>
        simp [childObservedVar, hk, hs, ht]
    · intro t ht
      rw [childObservedVar_credKey args _ p amb _ (by simp), hcred]
      cases hk : p.aws_access_key_id <;> cases hs : p.aws_secret_access_key <;>
        simp [childObservedVar, hk, hs, ht]
    · intro ht
      rw [childObservedVar_credKey args _ p amb _ (by simp), hcred]
      cases hk : p.aws_access_key_id <;> cases hs : p.aws_secret_access_key <;>
        simp [childObservedVar, hk, hs, ht]
  · rintro rfl v hv hne
    rw [childObservedVar_credKey args _ p amb _ (by simp)]
    have hcred : credEnvSets none p amb = [] := by
      unfold credEnvSets
      cases hstat : p.is_static <;> simp [hv, hne]
    rw [hcred]
    simp [childObservedVar, hv]

/-- Witness for C5 at concrete inputs: with resolved credentials the child
sees the resolved access key; with a static profile and an ambient key set,
the ambient key survives; with no ambient key the profile key is injected. -/
theorem c5_witness :
    (childObservedVar
      (childEnvSets ["s3", "ls"]
        (some ⟨"RAK", "RSK", "RTOK", "EXP"⟩)
        { name := "default" } (fun _ => none))
      (fun _ => none) "AWS_ACCESS_KEY_ID" = some "RAK") ∧
    (childObservedVar
      (childEnvSets ["s3", "ls"] none
        { name := "default", aws_access_key_id := some "PROFILEKEY",
          aws_secret_access_key := some "PROFILESECRET" }
        (fun k => if k = "AWS_ACCESS_KEY_ID" then some "EXPLICIT" else none))
      (fun k => if k = "AWS_ACCESS_KEY_ID" then some "EXPLICIT" else none)
      "AWS_ACCESS_KEY_ID" = some "EXPLICIT") ∧
    (childObservedVar
      (childEnvSets ["s3", "ls"] none
        { name := "default", aws_access_key_id := some "PROFILEKEY",
          aws_secret_access_key := some "PROFILESECRET" }
        (fun _ => none))
      (fun _ => none) "AWS_ACCESS_KEY_ID" = some "PROFILEKEY") := by
  refine ⟨?_, ?_, ?_⟩
  · exact ((c5_credential_injection_precedence ["s3", "ls"]
      (some ⟨"RAK", "RSK", "RTOK", "EXP"⟩) { name := "default" } (fun _ => none)).1
      ⟨"RAK", "RSK", "RTOK", "EXP"⟩ rfl).1
  · exact (c5_credential_injection_precedence ["s3", "ls"] none
      { name := "default", aws_access_key_id := some "PROFILEKEY",
        aws_secret_access_key := some "PROFILESECRET" }
      (fun k => if k = "AWS_ACCESS_KEY_ID" then some "EXPLICIT" else none)).2.2
      rfl "EXPLICIT" (by decide) (by decide)
  · exact ((c5_credential_injection_precedence ["s3", "ls"] none
      { name := "default", aws_access_key_id := some "PROFILEKEY",
        aws_secret_access_key := some "PROFILESECRET" }
      (fun _ => none)).2.1 rfl (by decide) (Or.inl rfl)).1 "PROFILEKEY" rfl

/-- Unfolding lemma for `tableKeys`. -/
@[simp] lemma tableKeys_nil : tableKeys [] = [] := rfl

/-- Unfolding lemma for `tableKeys`. -/
@[simp] lemma tableKeys_cons (e : String × Profile) (rest : ProfileTable) :
    tableKeys (e :: rest) = e.1 :: tableKeys rest := rfl

/-- `tableUpsert` at the touched key: the mutation is applied to the
existing entry, or to a fresh default profile named after the key. -/
lemma tableLookup_upsert_self (m : ProfileTable) (k : String) (f : Profile → Profile) :
    tableLookup (tableUpsert m k f) k = some (f ((tableLookup m k).getD { name := k })) := by
  induction m with
  | nil => simp [tableUpsert, tableLookup]
  | cons e rest ih =>
    obtain ⟨k0, p⟩ := e
    by_cases h : k0 = k
    · subst h
      simp [tableUpsert, tableLookup]
    · simp [tableUpsert, tableLookup, h, ih]

/-- `tableUpsert` leaves other keys alone. -/
lemma tableLookup_upsert_ne (m : ProfileTable) (k : String) (f : Profile → Profile)
    (n : String) (h : n ≠ k) :
    tableLookup (tableUpsert m k f) n = tableLookup m n := by
  induction m with
  | nil => simp [tableUpsert, tableLookup, Ne.symm h]
  | cons e rest ih =>
    obtain ⟨k0, p⟩ := e
    by_cases hk : k0 = k
    · subst hk
      simp [tableUpsert, tableLookup, Ne.symm h]
    · simp [tableUpsert, tableLookup, hk, ih]

/-- Membership in the keys after an upsert. -/
lemma mem_tableKeys_upsert (m : ProfileTable) (k : String) (f : Profile → Profile)
    (n : String) :
    n ∈ tableKeys (tableUpsert m k f) ↔ n ∈ tableKeys m ∨ n = k := by
  induction m with
  | nil => simp [tableUpsert]
  | cons e rest ih =>
    obtain ⟨k0, p⟩ := e
    by_cases hk : k0 = k
    · subst hk
      have he : tableUpsert ((k0, p) :: rest) k0 f = (k0, f p) :: rest := by
        simp [tableUpsert]
      rw [he, tableKeys_cons, tableKeys_cons]
      simp only [List.mem_cons]
      tauto
    · simp only [tableUpsert, if_neg hk, tableKeys_cons, List.mem_cons]
      rw [ih]
      tauto

/-- An upsert preserves distinctness of the keys. -/
lemma nodup_tableKeys_upsert (m : ProfileTable) (k : String) (f : Profile → Profile)
    (h : (tableKeys m).Nodup) : (tableKeys (tableUpsert m k f)).Nodup := by
  induction m with
  | nil => simp [tableUpsert]
  | cons e rest ih =>
    obtain ⟨k0, p⟩ := e
    simp only [tableKeys_cons, List.nodup_cons] at h
    by_cases hk : k0 = k
    · subst hk
      have he : tableUpsert ((k0, p) :: rest) k0 f = (k0, f p) :: rest := by
        simp [tableUpsert]
      rw [he, tableKeys_cons, List.nodup_cons]
      exact ⟨h.1, h.2⟩
    · simp only [tableUpsert, if_neg hk, tableKeys_cons, List.nodup_cons]
      refine ⟨?_, ih h.2⟩
      intro hmem
      rcases (mem_tableKeys_upsert rest k f k0).mp hmem with hm | rfl
      · exact h.1 hm
      · exact hk rfl

/-- A fold of upserts over sections none of which maps to `n` leaves the
entry for `n` unchanged. -/
lemma foldUpserts_lookup_of_notMem (keyOf : String × KVList → String)
    (updOf : String × KVList → Profile → Profile) (secs : IniMap)
    (m : ProfileTable) (n : String) (h : n ∉ secs.map keyOf) :
    tableLookup (foldUpserts keyOf updOf secs m) n = tableLookup m n := by
  induction secs generalizing m with
  | nil => rfl
  | cons sp rest ih =>
    simp only [List.map_cons, List.mem_cons] at h
    push_neg at h
    rw [foldUpserts, ih _ h.2, tableLookup_upsert_ne _ _ _ _ h.1]

/-- A fold of upserts over sections with distinct profile names: the entry
for the profile name of a section `sp` of the list is `sp`'s mutation
applied on top of whatever the initial table holds for that name. -/
lemma foldUpserts_lookup_of_mem (keyOf : String × KVList → String)
    (updOf : String × KVList → Profile → Profile) (secs : IniMap)
    (sp : String × KVList)
    (hnd : (secs.map keyOf).Nodup) (hsp : sp ∈ secs) :
    ∀ m : ProfileTable,
      tableLookup (foldUpserts keyOf updOf secs m) (keyOf sp) =
        some (updOf sp ((tableLookup m (keyOf sp)).getD { name := keyOf sp })) := by
  induction secs with
  | nil => cases hsp
  | cons q rest ih =>
    intro m
    simp only [List.map_cons, List.nodup_cons] at hnd
    rw [foldUpserts]
    rcases List.mem_cons.mp hsp with rfl | hmem
    · rw [foldUpserts_lookup_of_notMem keyOf updOf rest _ _ hnd.1,
        tableLookup_upsert_self]
    · have hne : keyOf sp ≠ keyOf q := by
        intro e
        exact hnd.1 (e ▸ List.mem_map_of_mem keyOf hmem)
      rw [ih hnd.2 hmem _, tableLookup_upsert_ne _ _ _ _ hne]

/-- Key membership after a fold of upserts. -/
lemma foldUpserts_mem_keys (keyOf : String × KVList → String)
    (updOf : String × KVList → Profile → Profile) (secs : IniMap)
    (m : ProfileTable) (n : String) :
    n ∈ tableKeys (foldUpserts keyOf updOf secs m) ↔
      n ∈ tableKeys m ∨ n ∈ secs.map keyOf := by
  induction secs generalizing m with
  | nil => simp [foldUpserts]
  | cons q rest ih =>
    rw [foldUpserts, ih, mem_tableKeys_upsert]
    simp [or_assoc]

/-- A fold of upserts preserves distinctness of the keys. -/
lemma foldUpserts_nodup (keyOf : String × KVList → String)
    (updOf : String × KVList → Profile → Profile) (secs : IniMap)
    (m : ProfileTable) (h : (tableKeys m).Nodup) :
    (tableKeys (foldUpserts keyOf updOf secs m)).Nodup := by
  induction secs generalizing m with
  | nil => exact h
  | cons q rest ih => exact ih _ (nodup_tableKeys_upsert _ _ _ h)

/-- The fields of a profile assembled from one config section and one
credentials section on top of the default: every field comes from its
source's section, additively and with nothing dropped. -/
lemma merged_profile_fields (pc pr : KVList) (n : String) :
    (applyCredsProps pr (applyConfigProps pc { name := n })).name = n ∧
    (applyCredsProps pr (applyConfigProps pc { name := n })).region = kvLookup pc "region" ∧
    (applyCredsProps pr (applyConfigProps pc { name := n })).sso_start_url = kvLookup pc "sso_start_url" ∧
    (applyCredsProps pr (applyConfigProps pc { name := n })).sso_region = kvLookup pc "sso_region" ∧
    (applyCredsProps pr (applyConfigProps pc { name := n })).role_arn = kvLookup pc "role_arn" ∧
    (applyCredsProps pr (applyConfigProps pc { name := n })).source_profile = kvLookup pc "source_profile" ∧
    (applyCredsProps pr (applyConfigProps pc { name := n })).mfa_serial = kvLookup pc "mfa_serial" ∧
    (applyCredsProps pr (applyConfigProps pc { name := n })).aws_access_key_id = kvLookup pr "aws_access_key_id" ∧
    (applyCredsProps pr (applyConfigProps pc { name := n })).aws_secret_access_key = kvLookup pr "aws_secret_access_key" ∧
    (applyCredsProps pr (applyConfigProps pc { name := n })).aws_session_token = kvLookup pr "aws_session_token" := by
  refine ⟨rfl, ?_, ?_, ?_, ?_, ?_, ?_, ?_, ?_, ?_⟩
  · cases h : kvLookup pc "region" <;> simp [applyConfigProps, applyCredsProps, h]
  · cases h : kvLookup pc "sso_start_url" <;> simp [applyConfigProps, applyCredsProps, h]
  · cases h : kvLookup pc "sso_region" <;> simp [applyConfigProps, applyCredsProps, h]
  · cases h : kvLookup pc "role_arn" <;> simp [applyConfigProps, applyCredsProps, h]
  · cases h : kvLookup pc "source_profile" <;> simp [applyConfigProps, applyCredsProps, h]
  · cases h : kvLookup pc "mfa_serial" <;> simp [applyConfigProps, applyCredsProps, h]
  · cases h : kvLookup pr "aws_access_key_id" <;> simp [applyConfigProps, applyCredsProps, h]
  · cases h : kvLookup pr "aws_secret_access_key" <;> simp [applyConfigProps, applyCredsProps, h]
  · cases h : kvLookup pr "aws_session_token" <;> simp [applyConfigProps, applyCredsProps, h]

/-- Applying an empty config section changes nothing. -/
lemma applyConfigProps_nil (p : Profile) : applyConfigProps [] p = p := rfl

/-- Applying an empty credentials section changes nothing. -/
lemma applyCredsProps_nil (p : Profile) : applyCredsProps [] p = p := rfl

/-- When some config section maps to profile name `n`, `configPropsFor`
returns the properties of a section of the parsed config that maps to
`n`. -/
lemma configPropsFor_of_mem (cfg n : String)
    (hm : n ∈ (parse_ini cfg).map (fun sp => profileNameOfSection sp.1)) :
    ∃ sp ∈ parse_ini cfg, profileNameOfSection sp.1 = n ∧ configPropsFor cfg n = sp.2 := by
  obtain ⟨sp0, hsp0, hk0⟩ := List.mem_map.mp hm
  rcases hfind : (parse_ini cfg).find? (fun sp => profileNameOfSection sp.1 = n) with _ | sp
  · exfalso
    have := List.find?_eq_none.mp hfind sp0 hsp0
    simp [hk0] at this
  · refine ⟨sp, List.mem_of_find?_eq_some hfind, ?_, ?_⟩
    · have := List.find?_some hfind
      simpa using this
    · unfold configPropsFor
      rw [hfind]

/-- When no config section maps to `n`, `configPropsFor` is empty. -/
lemma configPropsFor_of_notMem (cfg n : String)
    (hm : n ∉ (parse_ini cfg).map (fun sp => profileNameOfSection sp.1)) :
    configPropsFor cfg n = [] := by
  unfold configPropsFor
  rw [List.find?_eq_none.mpr]
  intro sp hsp
  simp only [decide_eq_true_eq]
  intro he
  exact hm (List.mem_map.mpr ⟨sp, hsp, he⟩)

/-- When some credentials section is named `n`, `credsPropsFor` returns the
properties of a section of the parsed credentials named `n`. -/
lemma credsPropsFor_of_mem (cr n : String)
    (hm : n ∈ (parse_ini cr).map (fun sp => sp.1)) :
    ∃ sp ∈ parse_ini cr, sp.1 = n ∧ credsPropsFor cr n = sp.2 := by
  obtain ⟨sp0, hsp0, hk0⟩ := List.mem_map.mp hm
  rcases hfind : (parse_ini cr).find? (fun sp => sp.1 = n) with _ | sp
  · exfalso
    have := List.find?_eq_none.mp hfind sp0 hsp0
    simp [hk0] at this
  · refine ⟨sp, List.mem_of_find?_eq_some hfind, ?_, ?_⟩
    · have := List.find?_some hfind
      simpa using this
    · unfold credsPropsFor
      rw [hfind]

/-- When no credentials section is named `n`, `credsPropsFor` is empty. -/
lemma credsPropsFor_of_notMem (cr n : String)
    (hm : n ∉ (parse_ini cr).map (fun sp => sp.1)) :
    credsPropsFor cr n = [] := by
  unfold credsPropsFor
  rw [List.find?_eq_none.mpr]
  intro sp hsp
  simp only [decide_eq_true_eq]
  intro he
  exact hm (List.mem_map.mpr ⟨sp, hsp, he⟩)

/-- The entry for `n` in the config-only table. -/
lemma loadConfigInto_lookup (cfg n : String)
    (hc : ((parse_ini cfg).map (fun sp => profileNameOfSection sp.1)).Nodup) :
    tableLookup (loadConfigInto [] (parse_ini cfg)) n =
      if n ∈ (parse_ini cfg).map (fun sp => profileNameOfSection sp.1) then
        some (applyConfigProps (configPropsFor cfg n) { name := n })
      else none := by
  by_cases hm : n ∈ (parse_ini cfg).map (fun sp => profileNameOfSection sp.1)
  · obtain ⟨sp, hsp, hk, hprops⟩ := configPropsFor_of_mem cfg n hm
    rw [if_pos hm, hprops]
    have h := foldUpserts_lookup_of_mem (fun sp => profileNameOfSection sp.1)
      (fun sp => applyConfigProps sp.2) (parse_ini cfg) sp hc hsp []
    simp only [hk, tableLookup, Option.getD_none] at h
    exact h
  · rw [if_neg hm]
    unfold loadConfigInto
    rw [foldUpserts_lookup_of_notMem _ _ _ _ _ hm]
    rfl

/-- The entry for `n` in the merged table, under distinctness of the
profile names contributed by each source: present exactly when some source
mentions `n`, and equal to the two per-source mutations stacked on the
default profile named `n`. -/
lemma mergeSources_lookup (cfg cr : String)
    (hc : ((parse_ini cfg).map (fun sp => profileNameOfSection sp.1)).Nodup)
    (hr : ((parse_ini cr).map (fun sp => sp.1)).Nodup) (n : String) :
    tableLookup (mergeSources cfg cr) n =
      if n ∈ (parse_ini cfg).map (fun sp => profileNameOfSection sp.1) ∨
          n ∈ (parse_ini cr).map (fun sp => sp.1) then
        some (applyCredsProps (credsPropsFor cr n)
          (applyConfigProps (configPropsFor cfg n) { name := n }))
      else none := by
  by_cases hm2 : n ∈ (parse_ini cr).map (fun sp => sp.1)
  · obtain ⟨sp, hsp, hk, hprops⟩ := credsPropsFor_of_mem cr n hm2
    rw [if_pos (Or.inr hm2), hprops]
    have h2 := foldUpserts_lookup_of_mem (fun sp => sp.1)
      (fun sp => applyCredsProps sp.2) (parse_ini cr) sp hr hsp
      (loadConfigInto [] (parse_ini cfg))
    simp only [hk] at h2
    have hgoal : tableLookup (mergeSources cfg cr) n =
        some (applyCredsProps sp.2
          ((tableLookup (loadConfigInto [] (parse_ini cfg)) n).getD { name := n })) := h2
    rw [hgoal, loadConfigInto_lookup cfg n hc]
    by_cases hm1 : n ∈ (parse_ini cfg).map (fun sp => profileNameOfSection sp.1)
    · rw [if_pos hm1]
      rfl
    · rw [if_neg hm1, configPropsFor_of_notMem cfg n hm1, applyConfigProps_nil]
      rfl
  · have hskip : tableLookup (mergeSources cfg cr) n =
        tableLookup (loadConfigInto [] (parse_ini cfg)) n :=
      foldUpserts_lookup_of_notMem _ _ _ _ _ hm2
    rw [hskip, loadConfigInto_lookup cfg n hc,
      credsPropsFor_of_notMem cr n hm2]
    by_cases hm1 : n ∈ (parse_ini cfg).map (fun sp => profileNameOfSection sp.1)
    · rw [if_pos hm1, if_pos (Or.inl hm1), applyCredsProps_nil]
    · rw [if_neg hm1, if_neg (by tauto)]

/-- C7: for every pair of config/credentials sources (each possibly absent,
treated as empty), `load_profiles_from_dir` fails exactly when a present
source cannot be read; otherwise it produces exactly one entry per distinct
profile name across both sources (config section names stripped of the
`profile ` marker, credentials section names bare), with each source's
fields additively merged into that entry and no field dropped. The
field-level characterization is stated for sources whose section names map
to distinct profile names (the arbitrary `HashMap` iteration order of the
source makes the overlap order unspecified otherwise). -/
theorem c7_profile_store_load :
    (∀ config creds : Option (Option String),
      (∃ e, load_profiles_from_dir config creds = Except.error e) ↔
        config = some none ∨ creds = some none) ∧
    (∀ cfg : String, load_profiles_from_dir (some (some cfg)) none =
        load_profiles_from_dir (some (some cfg)) (some (some ""))) ∧
    (∀ cr : String, load_profiles_from_dir none (some (some cr)) =
        load_profiles_from_dir (some (some "")) (some (some cr))) ∧
    (∀ cfg cr : String,
      load_profiles_from_dir (some (some cfg)) (some (some cr)) =
        Except.ok (mergeSources cfg cr)) ∧
    (∀ cfg cr : String,
      ((parse_ini cfg).map (fun sp => profileNameOfSection sp.1)).Nodup →
      ((parse_ini cr).map (fun sp => sp.1)).Nodup →
      (tableKeys (mergeSources cfg cr)).Nodup ∧
      (∀ n, n ∈ tableKeys (mergeSources cfg cr) ↔
        n ∈ (parse_ini cfg).map (fun sp => profileNameOfSection sp.1) ∨
        n ∈ (parse_ini cr).map (fun sp => sp.1)) ∧
      (∀ n p, tableLookup (mergeSources cfg cr) n = some p →
        p.name = n ∧
        p.region = kvLookup (configPropsFor cfg n) "region" ∧
        p.sso_start_url = kvLookup (configPropsFor cfg n) "sso_start_url" ∧
        p.sso_region = kvLookup (configPropsFor cfg n) "sso_region" ∧
        p.role_arn = kvLookup (configPropsFor cfg n) "role_arn" ∧
        p.source_profile = kvLookup (configPropsFor cfg n) "source_profile" ∧
        p.mfa_serial = kvLookup (configPropsFor cfg n) "mfa_serial" ∧
        p.aws_access_key_id = kvLookup (credsPropsFor cr n) "aws_access_key_id" ∧
        p.aws_secret_access_key = kvLookup (credsPropsFor cr n) "aws_secret_access_key" ∧
        p.aws_session_token = kvLookup (credsPropsFor cr n) "aws_session_token")) := by
  refine ⟨?_, fun cfg => rfl, fun cr => rfl, fun cfg cr => rfl, ?_⟩
  · intro config creds
    rcases config with _ | oc
    · rcases creds with _ | ocr
      · simp [load_profiles_from_dir]
      · rcases ocr with _ | cr <;> simp [load_profiles_from_dir]
    · rcases oc with _ | cfg
      · simp [load_profiles_from_dir]
      · rcases creds with _ | ocr
        · simp [load_profiles_from_dir]
        · rcases ocr with _ | cr <;> simp [load_profiles_from_dir]
  · intro cfg cr hc hr
    refine ⟨?_, ?_, ?_⟩
    · unfold mergeSources loadCredsInto loadConfigInto
      exact foldUpserts_nodup _ _ _ _ (foldUpserts_nodup _ _ _ _ (by simp))
    · intro n
      unfold mergeSources loadCredsInto loadConfigInto
      rw [foldUpserts_mem_keys, foldUpserts_mem_keys]
      simp
    · intro n p hp
      rw [mergeSources_lookup cfg cr hc hr n] at hp
      by_cases hmem : n ∈ (parse_ini cfg).map (fun sp => profileNameOfSection sp.1) ∨
          n ∈ (parse_ini cr).map (fun sp => sp.1)
      · rw [if_pos hmem] at hp
        injection hp with hp
        subst hp
        exact merged_profile_fields _ _ n
      · rw [if_neg hmem] at hp
        cases hp

/-- Witness for C7 at the repository test fixture: the merged table has
distinct keys, and the `base` profile (contributed by the credentials
source only) is present. -/
theorem c7_witness :
    (tableKeys (mergeSources
      "[profile sso-prod]\nsso_start_url = https://d-123.awsapps.com/start\nsso_region = us-west-2\nregion = us-west-2\n\n[default]\nregion = us-east-1"
      "[default]\naws_access_key_id = DEFKEY\naws_secret_access_key = DEFSECRET\n\n[base]\naws_access_key_id = BASEKEY\naws_secret_access_key = BASESECRET")).Nodup ∧
    ("base" ∈ tableKeys (mergeSources
      "[profile sso-prod]\nsso_start_url = https://d-123.awsapps.com/start\nsso_region = us-west-2\nregion = us-west-2\n\n[default]\nregion = us-east-1"
      "[default]\naws_access_key_id = DEFKEY\naws_secret_access_key = DEFSECRET\n\n[base]\naws_access_key_id = BASEKEY\naws_secret_access_key = BASESECRET") ↔
      "base" ∈ (parse_ini
        "[profile sso-prod]\nsso_start_url = https://d-123.awsapps.com/start\nsso_region = us-west-2\nregion = us-west-2\n\n[default]\nregion = us-east-1").map
        (fun sp => profileNameOfSection sp.1) ∨
      "base" ∈ (parse_ini
        "[default]\naws_access_key_id = DEFKEY\naws_secret_access_key = DEFSECRET\n\n[base]\naws_access_key_id = BASEKEY\naws_secret_access_key = BASESECRET").map
        (fun sp => sp.1)) := by
  refine ⟨(c7_profile_store_load.2.2.2.2 _ _ (by decide) (by decide)).1,
    (c7_profile_store_load.2.2.2.2 _ _ (by decide) (by decide)).2.1 "base"⟩

/-- Any non-header raw line leaves `current_section` unchanged. -/
lemma iniLineStep_snd (m : IniMap) (cur : String) (raw : String)
    (h : isHeaderLine raw = false) :
    (iniLineStep (m, cur) raw).2 = cur := by
  unfold iniLineStep
  by_cases h1 : trimChars raw.data = []
  · simp [h1]
  · have h3 : ((trimChars raw.data).head? == some '[' &&
        (trimChars raw.data).getLast? == some ']') = false := by
      simpa [isHeaderLine] using h
    cases h2 : ((trimChars raw.data).head? == some '#' ||
        (trimChars raw.data).head? == some ';') with
    | true => simp [h1, h2]
    | false =>
      cases hdw : List.dropWhile (fun c => c != '=') (trimChars raw.data) with
      | nil => simp [h1, h2, h3, hdw]
      | cons c cs => simp [h1, h2, h3, hdw]

/-- Folding the parser over header-free lines keeps `current_section` at
`default` throughout: the whole prefix is processed with every `key = value`
line inserted into the `default` section. -/
lemma foldl_iniLineStep_preheader (pre : List String) (m : IniMap)
    (h : ∀ l ∈ pre, isHeaderLine l = false) :
    List.foldl iniLineStep (m, "default") pre =
      (List.foldl (fun acc raw => (iniLineStep (acc, "default") raw).1) m pre, "default") := by
  induction pre generalizing m with
  | nil => rfl
  | cons raw rest ih =>
    have hr : isHeaderLine raw = false := h raw (List.mem_cons_self raw rest)
    have hrest : ∀ l ∈ rest, isHeaderLine l = false :=
      fun l hl => h l (List.mem_cons_of_mem raw hl)
    simp only [List.foldl_cons]
    have hstep : iniLineStep (m, "default") raw =
        ((iniLineStep (m, "default") raw).1, "default") := by
      have h2 := iniLineStep_snd m "default" raw hr
      calc iniLineStep (m, "default") raw
          = ((iniLineStep (m, "default") raw).1, (iniLineStep (m, "default") raw).2) := rfl
        _ = ((iniLineStep (m, "default") raw).1, "default") := by rw [h2]
    rw [hstep, ih _ hrest]

/-- C9: every `key = value` line before any `[section]` header is assigned
to the section named `default` (the parser state stays at `default` for the
whole header-free prefix), and the loader merges that section into the
`default` profile rather than ignoring it: the `profile ` marker is not
stripped from `default`, and on a concrete file a stray top assignment
becomes the `default` profile's region. -/
theorem c9_preheader_lines_default_section :
    (∀ pre rest : List String, ∀ m : IniMap,
      (∀ l ∈ pre, isHeaderLine l = false) →
      List.foldl iniLineStep (m, "default") (pre ++ rest) =
        List.foldl iniLineStep
          (List.foldl (fun acc raw => (iniLineStep (acc, "default") raw).1) m pre, "default")
          rest) ∧
    profileNameOfSection "default" = "default" ∧
    load_profiles_from_dir
        (some (some "region = us-east-1\n[profile x]\nregion = eu-west-1")) none =
      Except.ok
        [("default", { name := "default", region := some "us-east-1" }),
         ("x", { name := "x", region := some "eu-west-1" })] := by
  refine ⟨?_, rfl, rfl⟩
  intro pre rest m h
  rw [List.foldl_append, foldl_iniLineStep_preheader pre m h]

/-- Witness for C9 at a concrete input: a one-line header-free prefix is
folded into the `default` section state. -/
theorem c9_witness :
    List.foldl iniLineStep (([], "default") : IniMap × String)
        (["region = us-east-1"] ++ ["[profile x]", "region = eu-west-1"]) =
      List.foldl iniLineStep
        (List.foldl (fun acc raw => (iniLineStep (acc, "default") raw).1) ([] : IniMap)
          ["region = us-east-1"], "default")
        ["[profile x]", "region = eu-west-1"] :=
  c9_preheader_lines_default_section.1 ["region = us-east-1"]
    ["[profile x]", "region = eu-west-1"] [] (by decide)

/-- The prompt loop issues at most as many prompts as it has attempts
remaining. -/
lemma mfaLoop_promptCount (profile serial : String) (codes : Nat → String)
    (svc : Nat → String → Except String StsCredentials) :
    ∀ rem prompt calls,
      promptCount (mfaLoop profile serial codes svc rem prompt calls).2 ≤ rem := by
  intro rem
  induction rem with
  | zero =>
    intro prompt calls
    simp [mfaLoop, promptCount]
  | succ r ih =>
    intro prompt calls
    rw [mfaLoop]
    cases hv : mfaCodeValid (strTrim (codes prompt)) with
    | false =>
      have := ih (prompt + 1) calls
      simp only [hv, Bool.false_eq_true, if_false, promptCount, List.filter,
        isMfaPromptCall, List.length_cons] at this ⊢
      omega
    | true =>
      cases hs : svc calls (strTrim (codes prompt)) with
      | ok c =>
        simp [hv, hs, promptCount, List.filter, isMfaPromptCall, isGetSessionTokenCall]
      | error e =>
        cases hr : r with
        | zero =>
          simp [hv, hs, hr, promptCount, List.filter, isMfaPromptCall, isGetSessionTokenCall]
        | succ r2 =>
          subst hr
          have := ih (prompt + 1) (calls + 1)
          simp only [hv, hs, Nat.succ_ne_zero, if_false, promptCount, List.filter,
            isMfaPromptCall, isGetSessionTokenCall, List.length_cons] at this ⊢
          omega

/-- C2: the MFA prompt loop performs at most 3 prompt attempts; a code
failing the 6-digit check is rejected locally — the outcome and the number
of `get-session-token` network calls are those of the remaining attempts,
with no call consumed — and when all three attempts carry well-formed codes
that the service rejects, the loop ends in `std::process::exit(3)` rather
than a normal error. -/
theorem c2_mfa_prompt_loop (profile serial : String) (codes : Nat → String)
    (svc : Nat → String → Except String StsCredentials) :
    promptCount (mfaLoop profile serial codes svc 3 0 0).2 ≤ 3 ∧
    (∀ rem prompt calls, mfaCodeValid (strTrim (codes prompt)) = false →
      (mfaLoop profile serial codes svc (rem + 1) prompt calls).1 =
        (mfaLoop profile serial codes svc rem (prompt + 1) calls).1 ∧
      svcCallCount (mfaLoop profile serial codes svc (rem + 1) prompt calls).2 =
        svcCallCount (mfaLoop profile serial codes svc rem (prompt + 1) calls).2) ∧
    ((∀ i, i < 3 → mfaCodeValid (strTrim (codes i)) = true ∧
        ∃ e, svc i (strTrim (codes i)) = Except.error e) →
      (mfaLoop profile serial codes svc 3 0 0).1 = RunOutcome.exitProcess 3) := by
  refine ⟨mfaLoop_promptCount profile serial codes svc 3 0 0, ?_, ?_⟩
  · intro rem prompt calls hv
    rw [mfaLoop]
    simp [hv, svcCallCount, List.filter, isGetSessionTokenCall]
  · intro hall
    have hv0 : mfaCodeValid (strTrim (codes 0)) = true := (hall 0 (by omega)).1
    have hv1 : mfaCodeValid (strTrim (codes 1)) = true := (hall 1 (by omega)).1
    have hv2 : mfaCodeValid (strTrim (codes 2)) = true := (hall 2 (by omega)).1
    obtain ⟨e0, hs0⟩ := (hall 0 (by omega)).2
    obtain ⟨e1, hs1⟩ := (hall 1 (by omega)).2
    obtain ⟨e2, hs2⟩ := (hall 2 (by omega)).2
    simp [mfaLoop, hv0, hs0, hv1, hs1, hv2, hs2]

/-- Witness for C2 at concrete inputs: well-formed codes, a service that
always fails: three prompts and process exit 3. -/
theorem c2_witness :
    (mfaLoop "mfa-prod" "arn:aws:iam::000000000000:mfa/test-user"
        (fun _ => "123456") (fun _ _ => Except.error "denied") 3 0 0).1 =
      RunOutcome.exitProcess 3 ∧
    promptCount (mfaLoop "mfa-prod" "arn:aws:iam::000000000000:mfa/test-user"
        (fun _ => "123456") (fun _ _ => Except.error "denied") 3 0 0).2 ≤ 3 := by
  constructor
  · exact (c2_mfa_prompt_loop "mfa-prod" "arn:aws:iam::000000000000:mfa/test-user"
      (fun _ => "123456") (fun _ _ => Except.error "denied")).2.2
      (fun i _ => ⟨by decide, "denied", rfl⟩)
  · exact (c2_mfa_prompt_loop "mfa-prod" "arn:aws:iam::000000000000:mfa/test-user"
      (fun _ => "123456") (fun _ _ => Except.error "denied")).1

/-- C6: when the account id is extractable from the MFA serial and the
identity check answers with a different account, MFA acquisition fails hard
with the account-mismatch error before any prompt (zero prompts in the
trace); when the identity check itself fails, acquisition proceeds to the
prompt loop. -/
theorem c6_mfa_account_precheck (profile serial : String)
    (getAccount : Except String String) (codes : Nat → String)
    (svc : Nat → String → Except String StsCredentials) :
    (∀ mfaAccount profileAccount,
      extract_account_from_arn serial = some mfaAccount →
      getAccount = Except.ok profileAccount →
      profileAccount ≠ mfaAccount →
      get_session_token_interactive profile serial getAccount codes svc =
        (RunOutcome.err (accountMismatchMessage mfaAccount profileAccount profile),
         [ExtCall.getAccount profile 5]) ∧
      promptCount (get_session_token_interactive profile serial getAccount codes svc).2 = 0) ∧
    (∀ mfaAccount e,
      extract_account_from_arn serial = some mfaAccount →
      getAccount = Except.error e →
      get_session_token_interactive profile serial getAccount codes svc =
        ((mfaLoop profile serial codes svc 3 0 0).1,
         ExtCall.getAccount profile 5 :: (mfaLoop profile serial codes svc 3 0 0).2)) := by
  constructor
  · rintro ma pa hex rfl hne
    refine ⟨?_, ?_⟩
    · simp [get_session_token_interactive, hex, hne]
    · simp [get_session_token_interactive, hex, hne, promptCount, List.filter, isMfaPromptCall]
  · rintro ma e hex rfl
    simp [get_session_token_interactive, hex]

/-- Witness for C6 at the spec's example: serial account 111111111111
against identity-check account 000000000000 is a hard mismatch error with
no prompt issued. -/
theorem c6_witness :
    get_session_token_interactive "example-profile"
        "arn:aws:iam::111111111111:mfa/test-user"
        (Except.ok "000000000000") (fun _ => "123456")
        (fun _ _ => Except.error "denied") =
      (RunOutcome.err
        (accountMismatchMessage "111111111111" "000000000000" "example-profile"),
       [ExtCall.getAccount "example-profile" 5]) :=
  ((c6_mfa_account_precheck "example-profile" "arn:aws:iam::111111111111:mfa/test-user"
      (Except.ok "000000000000") (fun _ => "123456") (fun _ _ => Except.error "denied")).1
    "111111111111" "000000000000" (by decide) rfl (by decide)).1

/-- C10: a profile that is not a role, has an `mfa_serial`, but is not
static (at least one of the two static keys missing) resolves to
`NoInjectionNeeded` (`none`) with an empty external-call trace: no MFA
prompt and no identity-service call — the MFA path is taken only for
profiles that both require MFA and are static. -/
theorem c10_mfa_requires_static (store : String → Option Profile) (p : Profile)
    (s : Services) :
    p.is_role = false → p.requires_mfa = true → p.is_static = false →
    resolveCreds store p s = (RunOutcome.ok none, []) := by
  intro hrole hmfa hstat
  have h1 : p.role_arn = none := by
    cases h : p.role_arn with
    | none => rfl
    | some v =>
      rw [Profile.is_role, h] at hrole
      simp at hrole
  obtain ⟨mfa, h2⟩ : ∃ m, p.mfa_serial = some m := by
    rw [Profile.requires_mfa] at hmfa
    exact Option.isSome_iff_exists.mp hmfa
  simp [resolveCreds, h1, h2, hstat]

/-- Witness for C10 at a concrete input: an MFA serial with no static keys
yields `NoInjectionNeeded` with no external calls. -/
theorem c10_witness :
    resolveCreds (fun _ => none)
      { name := "mfa-only", mfa_serial := some "arn:aws:iam::000000000000:mfa/u" }
      ⟨fun _ => Except.error "x", fun _ => Except.error "x", fun _ => Except.error "x",
       fun _ _ _ _ => Except.error "x", fun _ _ _ => Except.error "x",
       fun _ _ _ => Except.error "x", "awx-1", fun _ => ""⟩ =
      (RunOutcome.ok none, []) :=
  c10_mfa_requires_static (fun _ => none)
    { name := "mfa-only", mfa_serial := some "arn:aws:iam::000000000000:mfa/u" }
    ⟨fun _ => Except.error "x", fun _ => Except.error "x", fun _ => Except.error "x",
     fun _ _ _ _ => Except.error "x", fun _ _ _ => Except.error "x",
     fun _ _ _ => Except.error "x", "awx-1", fun _ => ""⟩
    (by decide) (by decide) (by decide)

/-- C1 counterexample: a role profile whose source profile is itself a role
(and also SSO) does NOT fail with a distinguished unsupported-chain error —
resolution classifies the source only by its SSO/static attributes, attempts
`assume-role` delegated to that source, and here succeeds. -/
theorem c1_counterexample :
    Profile.is_role
      { name := "mid", role_arn := some "arn:aws:iam::000000000000:role/Mid",
        sso_start_url := some "https://example.awsapps.com/start" } = true ∧
    resolveCreds
      (fun n => if n = "mid" then
        some
          { name := "mid", role_arn := some "arn:aws:iam::000000000000:role/Mid",
            sso_start_url := some "https://example.awsapps.com/start" }
        else none)
      { name := "app", role_arn := some "arn:aws:iam::000000000000:role/App",
        source_profile := some "mid" }
      ⟨fun _ => Except.error "x", fun _ => Except.error "x", fun _ => Except.error "x",
       fun _ _ _ _ => Except.error "x",
       fun _ _ _ => Except.ok ⟨"AK", "SK", "TOK", "EXP"⟩,
       fun _ _ _ => Except.error "x", "awx-1", fun _ => ""⟩ =
      (RunOutcome.ok (some ⟨"AK", "SK", "TOK", "EXP"⟩),
       [ExtCall.assumeRoleWithProfile "arn:aws:iam::000000000000:role/App" "awx-1" "mid" 30 3600]) :=
  ⟨rfl, rfl⟩

/-- C1 (amended): the resolver performs no role check on the source profile
at all. A source profile that is itself a role is classified solely by its
other attributes: if it is SSO or static (and not MFA-and-static),
`assume-role` is attempted delegated to it; only a role source with neither
SSO nor static keys fails, and then with the generic
unsupported-source-auth error, not a distinguished chain error. -/
theorem c1_role_source_no_chain_check (store : String → Option Profile)
    (p base : Profile) (s : Services) (role_arn source_name : String) :
    p.role_arn = some role_arn → p.source_profile = some source_name →
    store source_name = some base → base.is_role = true →
    ¬ (base.requires_mfa = true ∧ base.is_static = true) →
    ((base.is_sso = true ∨ base.is_static = true) →
      resolveCreds store p s = assumeViaSource role_arn source_name s) ∧
    (base.is_sso = false → base.is_static = false →
      resolveCreds store p s =
        (RunOutcome.err ("Unsupported source_profile auth method for " ++ source_name ++
          ". MVP supports SSO or static+MFA for source profiles."), [])) := by
  intro h1 h2 h3 _ hnot
  have hfb : resolveCreds store p s = roleSourceFallback role_arn source_name base s := by
    cases hm : base.mfa_serial with
    | none => simp [resolveCreds, h1, h2, h3, hm]
    | some m =>
      have hstat : base.is_static = false := by
        cases hbs : base.is_static with
        | false => rfl
        | true =>
          exact absurd ⟨by simp [Profile.requires_mfa, hm], hbs⟩ hnot
      simp [resolveCreds, h1, h2, h3, hm, hstat]
  constructor
  · rintro (hsso | hstat)
    · rw [hfb]
      simp [roleSourceFallback, hsso]
    · rw [hfb]
      cases hsso : base.is_sso <;> simp [roleSourceFallback, hsso, hstat]
  · intro hsso hstat
    rw [hfb]
    simp [roleSourceFallback, hsso, hstat]

/-- Witness for the amended C1 at concrete inputs: a pure-role source (no
SSO fields, no static keys) produces the generic unsupported-source-auth
error, and a role-and-SSO source goes to delegated `assume-role`. -/
theorem c1_witness :
    resolveCreds
      (fun n => if n = "mid" then
        some { name := "mid", role_arn := some "arn:aws:iam::000000000000:role/Mid" }
        else none)
      { name := "app", role_arn := some "arn:aws:iam::000000000000:role/App",
        source_profile := some "mid" }
      ⟨fun _ => Except.error "x", fun _ => Except.error "x", fun _ => Except.error "x",
       fun _ _ _ _ => Except.error "x", fun _ _ _ => Except.error "x",
       fun _ _ _ => Except.error "x", "awx-1", fun _ => ""⟩ =
      (RunOutcome.err ("Unsupported source_profile auth method for " ++ "mid" ++
        ". MVP supports SSO or static+MFA for source profiles."), []) :=
  (c1_role_source_no_chain_check
    (fun n => if n = "mid" then
      some { name := "mid", role_arn := some "arn:aws:iam::000000000000:role/Mid" }
      else none)
    { name := "app", role_arn := some "arn:aws:iam::000000000000:role/App",
      source_profile := some "mid" }
    { name := "mid", role_arn := some "arn:aws:iam::000000000000:role/Mid" }
    ⟨fun _ => Except.error "x", fun _ => Except.error "x", fun _ => Except.error "x",
     fun _ _ _ _ => Except.error "x", fun _ _ _ => Except.error "x",
     fun _ _ _ => Except.error "x", "awx-1", fun _ => ""⟩
    "arn:aws:iam::000000000000:role/App" "mid"
    rfl rfl (by decide) (by decide) (by decide)).2 (by decide) (by decide)

/-- C3 counterexample: the operator-selected profile is a role whose source
profile is SSO; the run resolves credentials through `assume-role` with
that SSO source and its full external-call trace contains no
check-identity (liveness) call at all — the liveness check is not performed
for a role profile's SSO source. -/
theorem c3_counterexample :
    Profile.is_sso
      { name := "base",
        sso_start_url := some "https://example.awsapps.com/start" } = true ∧
    runResolve false
      (fun n => if n = "app" then
        some
          { name := "app", role_arn := some "arn:aws:iam::000000000000:role/App",
            source_profile := some "base" }
        else if n = "base" then
          some { name := "base", sso_start_url := some "https://example.awsapps.com/start" }
        else none)
      "app"
      ⟨fun _ => Except.error "x", fun _ => Except.error "x", fun _ => Except.error "x",
       fun _ _ _ _ => Except.error "x",
       fun _ _ _ => Except.ok ⟨"AK", "SK", "TOK", "EXP"⟩,
       fun _ _ _ => Except.error "x", "awx-1", fun _ => ""⟩ =
      (RunOutcome.ok (some ⟨"AK", "SK", "TOK", "EXP"⟩),
       [ExtCall.assumeRoleWithProfile "arn:aws:iam::000000000000:role/App" "awx-1" "base" 30 3600]) :=
  ⟨rfl, rfl⟩

/-- C3 (amended): the SSO liveness check (check-identity with the 5-second
timeout) is invoked exactly for the operator-selected profile when that
profile `is_sso`, before credential resolution — it is then the first
external call of the run. SSO source profiles of role profiles are not
separately checked (see the counterexample). -/
theorem c3_sso_liveness_selected_only (noInteractive : Bool)
    (store : String → Option Profile) (selName : String) (s : Services) (p : Profile) :
    store selName = some p → p.is_sso = true →
    (runResolve noInteractive store selName s).2.head? =
      some (ExtCall.checkIdentity selName 5) := by
  intro hs hsso
  unfold runResolve
  rw [hs]
  cases hci : s.checkIdentity selName with
  | error e =>
    cases noInteractive <;> simp [sso_liveness, hsso, hci]
  | ok b =>
    cases b with
    | true => simp [sso_liveness, hsso, hci]
    | false =>
      cases noInteractive with
      | true => simp [sso_liveness, hsso, hci]
      | false =>
        cases hl : s.ssoLogin selName with
        | error e2 => simp [sso_liveness, hsso, hci, hl]
        | ok b2 => cases b2 <;> simp [sso_liveness, hsso, hci, hl]

/-- Witness for the amended C3 at a concrete input: for a selected SSO
profile the first external call of the run is the 5-second-timeout
check-identity. -/
theorem c3_witness :
    (runResolve true
      (fun n => if n = "sso-prod" then
        some { name := "sso-prod", sso_start_url := some "https://example.awsapps.com/start" }
        else none)
      "sso-prod"
      ⟨fun _ => Except.ok true, fun _ => Except.error "x", fun _ => Except.error "x",
       fun _ _ _ _ => Except.error "x", fun _ _ _ => Except.error "x",
       fun _ _ _ => Except.error "x", "awx-1", fun _ => ""⟩).2.head? =
      some (ExtCall.checkIdentity "sso-prod" 5) :=
  c3_sso_liveness_selected_only true
    (fun n => if n = "sso-prod" then
      some { name := "sso-prod", sso_start_url := some "https://example.awsapps.com/start" }
      else none)
    "sso-prod"
    ⟨fun _ => Except.ok true, fun _ => Except.error "x", fun _ => Except.error "x",
     fun _ _ _ _ => Except.error "x", fun _ _ _ => Except.error "x",
     fun _ _ _ => Except.error "x", "awx-1", fun _ => ""⟩
    { name := "sso-prod", sso_start_url := some "https://example.awsapps.com/start" }
    rfl (by decide)
